import Mathlib

/-!
Verification of the Ralph LRS data pipeline against its specification.

Shallow embedding of the core components referenced by the claims:
the LRS query parameter model and its construction-time checks
(`src/ralph/backends/database/base.py`), the ClickHouse query engine and
its cursor pagination (`src/ralph/backends/data/clickhouse.py`), the
async Mongo query engine (`src/ralph/backends/database/async_mongo.py`),
the chunked write pipelines of the ClickHouse, Mongo and Elasticsearch
backends, the S3 object-store write lifecycle
(`src/ralph/backends/data/s3.py`), the LDP log-archive backend
(`src/ralph/backends/data/ldp.py`) and the xAPI base actor models
(`src/ralph/models/xapi/base/actors.py`).

Machine integers, UUIDs and datetimes are modelled as `Nat` (the code
only ever compares them for equality and order); strings stay `String`.
External drivers (clickhouse-connect, pymongo, elasticsearch, boto3,
ovh) are modelled as explicit outcome oracles passed to the functions
that call them.
-/

namespace Ralph

/-- Error taxonomy of `ralph.exceptions` plus the two raw Python errors the
backends raise or let escape.  `backend` models `BackendException` with its
`args` tuple, `param` models `BackendParameterException`, `badFormat` models
`BadFormatException`, `notImplemented` models `NotImplementedError`, and
`uncaught` models a driver exception the code does not catch. -/
inductive BackendErr where
  | param (msg : String)
  | backend (args : List String)
  | badFormat (msg : String)
  | notImplemented (msg : String)
  | uncaught (name : String)
deriving DecidableEq

instance {ε α : Type} [DecidableEq ε] [DecidableEq α] : DecidableEq (Except ε α) :=
  fun x y =>
    match x, y with
    | Except.ok a, Except.ok b =>
      if h : a = b then Decidable.isTrue (by rw [h]) else Decidable.isFalse (by simp [h])
    | Except.ok _, Except.error _ => Decidable.isFalse (by simp)
    | Except.error _, Except.ok _ => Decidable.isFalse (by simp)
    | Except.error e, Except.error f =>
      if h : e = f then Decidable.isTrue (by rw [h]) else Decidable.isFalse (by simp [h])

/-- Lower-case an ASCII character (used to interpret what it means for an
error message to "carry" a quoted phrase, case-insensitively). -/
def lcChar (c : Char) : Char :=
  if 65 ≤ c.toNat && c.toNat ≤ 90 then Char.ofNat (c.toNat + 32) else c

/-- Does `hay` start with `needle`? (over character lists) -/
def charsStartWith : List Char → List Char → Bool
  | [], _ => true
  | _ :: _, [] => false
  | a :: as, b :: bs => a == b && charsStartWith as bs

/-- Does the second list contain the first as a contiguous run? -/
def charsContain (needle : List Char) : List Char → Bool
  | [] => needle.isEmpty
  | c :: cs => charsStartWith needle (c :: cs) || charsContain needle cs

/-- Case-insensitive test that an error message carries a quoted phrase. -/
def msgCarriesCI (msg phrase : String) : Bool :=
  charsContain (phrase.data.map lcChar) (msg.data.map lcChar)

/-! ## Query parameter model (`StatementParameters`, backends/database/base.py)

The dataclass fields, with `Optional[...] = None` rendered as `Option`
with a `none` default and Python truthiness of the two boolean flags as
plain `Bool`.  The source field `until` is a reserved word in Lean and is
spelled `until_` here. -/

structure StatementParameters where
  statementId : Option String := none
  voidedStatementId : Option String := none
  agent__mbox : Option String := none
  agent__mbox_sha1sum : Option String := none
  agent__openid : Option String := none
  agent__account__name : Option String := none
  agent__account__homePage : Option String := none
  verb : Option String := none
  activity : Option String := none
  registration : Option Nat := none
  related_activities : Bool := false
  related_agents : Bool := false
  since : Option Nat := none
  until_ : Option Nat := none
  limit : Option Nat := none
  format : Option String := none
  attachments : Bool := false
  ascending : Bool := false
  search_after : Option String := none
  pit_id : Option String := none
deriving DecidableEq

/-- Message of the account-pairing check in `StatementParameters.__post_init__`. -/
def invalidAgentAccountMsg : String :=
  "Invalid agent parameters: homePage and name are both required"

/-- Message of the inverse-functional-identifier count check in
`StatementParameters.__post_init__`. -/
def invalidAgentIdentifierMsg : String :=
  "Invalid agent parameters: Only one identifier can be used"

/-- The phrase quoted by the spec for the identifier-exclusivity failure. -/
def onlyOneIdentifierPhrase : String := "only one identifier can be used"

/-- Number of populated actor inverse-functional identifiers, as counted by
`sum(x is not None for x in [...])` in `__post_init__`. -/
def ifiCount (p : StatementParameters) : Nat :=
  p.agent__mbox.isSome.toNat + p.agent__mbox_sha1sum.isSome.toNat +
    p.agent__openid.isSome.toNat + p.agent__account__name.isSome.toNat

/-- `StatementParameters.__post_init__`: returns the message of the
`BackendParameterException` it raises, or `none` when construction succeeds.
The account-pairing check runs before the identifier-count check, exactly as
in the source. -/
def statementParametersPostInit (p : StatementParameters) : Option String :=
  if p.agent__account__name.isSome != p.agent__account__homePage.isSome then
    some invalidAgentAccountMsg
  else if 1 < ifiCount p then
    some invalidAgentIdentifierMsg
  else
    none

/-- Example mailbox IFI value. -/
def mboxLit : String := "mailto:foo@example.com"

/-- Example openid IFI value. -/
def openidLit : String := "http://foo.openid.example.org"

/-- Example account name value. -/
def accountNameLit : String := "john"

/-- Two IFIs populated where one of them is `agent__account__name` without
`agent__account__homePage`. -/
def c2BadPair : StatementParameters :=
  { agent__mbox := some mboxLit, agent__account__name := some accountNameLit }

/-- The spec scenario S2 input: both `agent__mbox` and `agent__openid`. -/
def c2TwoIFIs : StatementParameters :=
  { agent__mbox := some mboxLit, agent__openid := some openidLit }

/-- Exactly one of the two account halves populated. -/
def c2OnlyName : StatementParameters :=
  { agent__account__name := some accountNameLit }

/-- Claim C2, counterexample: constructing the parameter model with two actor
inverse-functional identifiers populated, one of them `agent__account__name`
without `agent__account__homePage`, does raise `BackendParameterException`,
but with the account-pairing message, which does not carry the phrase
"only one identifier can be used" (even case-insensitively) — the pairing
check runs first.  This refutes the claim as stated. -/
theorem c2_counterexample :
    1 < ifiCount c2BadPair ∧
      statementParametersPostInit c2BadPair = some invalidAgentAccountMsg ∧
      msgCarriesCI invalidAgentAccountMsg onlyOneIdentifierPhrase = false := by
  decide

/-- Claim C2 (amended): populating exactly one of `agent__account__name` and
`agent__account__homePage` fails with `BackendParameterException` carrying the
account-pairing message; populating more than one actor inverse-functional
identifier fails with `BackendParameterException`, and when the account
pairing constraint is not itself violated the message carries (up to letter
case) "only one identifier can be used". -/
theorem c2_amended (p : StatementParameters) :
    ((p.agent__account__name.isSome != p.agent__account__homePage.isSome) = true →
      statementParametersPostInit p = some invalidAgentAccountMsg)
    ∧ (1 < ifiCount p →
        (p.agent__account__name.isSome != p.agent__account__homePage.isSome) = false →
        statementParametersPostInit p = some invalidAgentIdentifierMsg
          ∧ msgCarriesCI invalidAgentIdentifierMsg onlyOneIdentifierPhrase = true)
    ∧ (1 < ifiCount p → ∃ m, statementParametersPostInit p = some m) := by
  refine ⟨fun h => ?_, fun hcount hbne => ⟨?_, by decide⟩, fun hcount => ?_⟩
  · simp [statementParametersPostInit, h]
  · simp [statementParametersPostInit, hbne, hcount]
  · by_cases hbne : (p.agent__account__name.isSome !=
      p.agent__account__homePage.isSome) = true
    · exact ⟨invalidAgentAccountMsg, by simp [statementParametersPostInit, hbne]⟩
    · refine ⟨invalidAgentIdentifierMsg, ?_⟩
      simp only [Bool.not_eq_true] at hbne
      simp [statementParametersPostInit, hbne, hcount]

/-- Claim C2, witness: the spec scenario S2 input (`agent__mbox` and
`agent__openid` both populated) fails with the identifier-exclusivity
message, which carries the quoted phrase; and populating only
`agent__account__name` fails with the account-pairing message. -/
theorem c2_amended_witness :
    statementParametersPostInit c2TwoIFIs = some invalidAgentIdentifierMsg ∧
      msgCarriesCI invalidAgentIdentifierMsg onlyOneIdentifierPhrase = true ∧
      statementParametersPostInit c2OnlyName = some invalidAgentAccountMsg := by
  have h := (c2_amended c2TwoIFIs).2.1 (by decide) (by decide)
  exact ⟨h.1, h.2, (c2_amended c2OnlyName).1 (by decide)⟩

/-! ## Sorted-list infrastructure

Insertion sort over a boolean relation, modelling the `ORDER BY` clauses of
the query backends, together with the uniqueness of sorted permutations
under a strict order.  Only standard list facts are used. -/

/-- Insert an element into a list in front of the first element it is `le` to. -/
def insertLe (le : α → α → Bool) (a : α) : List α → List α
  | [] => [a]
  | b :: l => if le a b then a :: b :: l else b :: insertLe le a l

/-- Insertion sort by a boolean relation. -/
def sortLe (le : α → α → Bool) : List α → List α
  | [] => []
  | a :: l => insertLe le a (sortLe le l)

theorem perm_insertLe (le : α → α → Bool) (a : α) (l : List α) :
    (insertLe le a l).Perm (a :: l) := by
  induction l with
  | nil => exact List.Perm.refl _
  | cons b t ih =>
    rw [insertLe]
    by_cases h : le a b
    · simp [h]
    · simp only [h, if_neg]
      exact (ih.cons b).trans (List.Perm.swap a b t)

theorem perm_sortLe (le : α → α → Bool) (l : List α) : (sortLe le l).Perm l := by
  induction l with
  | nil => exact List.Perm.refl _
  | cons a t ih => exact (perm_insertLe le a (sortLe le t)).trans (ih.cons a)

theorem pairwise_insertLe (le : α → α → Bool)
    (htrans : ∀ a b c, le a b = true → le b c = true → le a c = true)
    (htot : ∀ a b, le a b = false → le b a = true) (a : α) (l : List α)
    (h : l.Pairwise fun x y => le x y = true) :
    (insertLe le a l).Pairwise fun x y => le x y = true := by
  induction l with
  | nil => simp [insertLe]
  | cons b t ih =>
    rcases List.pairwise_cons.mp h with ⟨hb, ht⟩
    rw [insertLe]
    by_cases hab : le a b
    · simp only [if_pos hab]
      refine List.pairwise_cons.mpr ⟨?_, h⟩
      intro x hx
      rcases List.mem_cons.mp hx with hx | hx
      · exact hx ▸ hab
      · exact htrans a b x hab (hb x hx)
    · simp only [if_neg hab]
      refine List.pairwise_cons.mpr ⟨?_, ih ht⟩
      intro x hx
      rcases List.mem_cons.mp ((perm_insertLe le a t).mem_iff.mp hx) with hx | hx
      · exact hx ▸ htot a b (Bool.not_eq_true (le a b) ▸ hab)
      · exact hb x hx

theorem pairwise_sortLe (le : α → α → Bool)
    (htrans : ∀ a b c, le a b = true → le b c = true → le a c = true)
    (htot : ∀ a b, le a b = false → le b a = true) (l : List α) :
    (sortLe le l).Pairwise fun x y => le x y = true := by
  induction l with
  | nil => simp [sortLe]
  | cons a t ih => exact pairwise_insertLe le htrans htot a (sortLe le t) ih

/-- Two sorted permutations under an asymmetric relation are equal. -/
theorem eq_of_perm_of_pairwise_lt {lt : α → α → Prop}
    (hasymm : ∀ a b, lt a b → lt b a → False) :
    ∀ (l₁ l₂ : List α), l₁.Perm l₂ → l₁.Pairwise lt → l₂.Pairwise lt → l₁ = l₂ := by
  intro l₁
  induction l₁ with
  | nil =>
    intro l₂ hp _ _
    exact (List.perm_nil.mp hp.symm).symm
  | cons a t ih =>
    intro l₂ hp h₁ h₂
    cases l₂ with
    | nil => exact absurd (List.perm_nil.mp hp) (by simp)
    | cons b t₂ =>
      rcases List.pairwise_cons.mp h₁ with ⟨ha, ht⟩
      rcases List.pairwise_cons.mp h₂ with ⟨hb, ht₂⟩
      by_cases hab : a = b
      · subst hab
        rw [ih t₂ hp.cons_inv ht ht₂]
      · have ha2 : a ∈ t₂ := by
          rcases List.mem_cons.mp (hp.subset (List.mem_cons_self a t)) with h | h
          · exact absurd h hab
          · exact h
        have hb2 : b ∈ t := by
          rcases List.mem_cons.mp (hp.symm.subset (List.mem_cons_self b t₂)) with h | h
          · exact absurd h.symm hab
          · exact h
        exact absurd (ha b hb2) fun hlt => hasymm a b hlt (hb a ha2)

/-! ## Lexicographic key order

The `(emission_time, event_id)` composite sort key of the column store, and
the `(timestamp, _id)` sort key of the document store. -/

/-- Strict lexicographic order on a pair of naturals. -/
def lexLt (a b : Nat × Nat) : Bool :=
  decide (a.1 < b.1 ∨ (a.1 = b.1 ∧ a.2 < b.2))

/-- Lexicographic order on a pair of naturals. -/
def lexLe (a b : Nat × Nat) : Bool :=
  decide (a.1 < b.1 ∨ (a.1 = b.1 ∧ a.2 ≤ b.2))

theorem lexLe_trans (a b c : Nat × Nat) :
    lexLe a b = true → lexLe b c = true → lexLe a c = true := by
  simp only [lexLe, decide_eq_true_eq]
  omega

theorem lexLe_total (a b : Nat × Nat) : lexLe a b = false → lexLe b a = true := by
  simp only [lexLe, decide_eq_false_iff_not, decide_eq_true_eq]
  omega

theorem lexLt_asymm (a b : Nat × Nat) :
    lexLt a b = true → lexLt b a = true → False := by
  simp only [lexLt, decide_eq_true_eq]
  omega

theorem lexLe_ne_lt (a b : Nat × Nat) :
    lexLe a b = true → a ≠ b → lexLt a b = true := by
  rcases a with ⟨a1, a2⟩
  rcases b with ⟨b1, b2⟩
  simp only [lexLe, lexLt, decide_eq_true_eq, ne_eq, Prod.mk.injEq, not_and]
  omega

/-! ## The LRS statement and the ClickHouse query engine

`Statement` models the xAPI event payload fields the query engines read
(`event.actor.account.name`, `event.verb.id`, `event.object.objectType`,
`event.object.id`, and `timestamp`/`id` for the document store).  `CHRow`
is the persisted ingest tuple row `(event_id, emission_time, event)`;
UUIDs and datetimes are `Nat`.

`LRSParams` models the statement-query parameters consumed by
`query_statements`.  The `StatementParameters` class these backends import
from `ralph.backends.lrs.base` is not under `src/`; its query-relevant
fields are modelled from the spec grammar (sections 3 and 4.5): statement
id, agent (account-name form), verb IRI, activity IRI, since, until,
limit, ascending flag, and the `(search_after, pit_id)` cursor. -/

structure Statement where
  id : Nat
  timestamp : Nat
  actorAccountName : String
  verbId : String
  objectType : String
  objectId : String
deriving DecidableEq

/-- Literal `Activity` compared against `event.object.objectType`. -/
def activityLit : String := "Activity"

/-- Column-store row: the persisted ingest tuple (`event_str` is the JSON
serialization of `event` and is never read back by the query engine). -/
structure CHRow where
  event_id : Nat
  emission_time : Nat
  event : Statement
deriving DecidableEq

structure LRSParams where
  statementId : Option Nat := none
  agent : Option String := none
  verb : Option String := none
  activity : Option String := none
  since : Option Nat := none
  until_ : Option Nat := none
  limit : Option Nat := none
  ascending : Bool := false
  search_after : Option Nat := none
  pit_id : Option Nat := none
deriving DecidableEq

/-- The non-cursor `WHERE` clauses of `ClickHouseLRSBackend.query_statements`,
one conjunct per populated parameter. -/
def chMatches (p : LRSParams) (r : CHRow) : Bool :=
  (match p.statementId with
   | some v => decide (r.event_id = v)
   | none => true) &&
  (match p.agent with
   | some v => r.event.actorAccountName == v
   | none => true) &&
  (match p.verb with
   | some v => r.event.verbId == v
   | none => true) &&
  (match p.activity with
   | some v => (r.event.objectType == activityLit) && (r.event.objectId == v)
   | none => true) &&
  (match p.since with
   | some v => decide (v < r.emission_time)
   | none => true) &&
  (match p.until_ with
   | some v => decide (r.emission_time ≤ v)
   | none => true)

/-- The cursor clause: `(emission_time OP search_after) OR (emission_time =
search_after AND event_id OP pit_id)` with `OP` being `>` when ascending
and `<` otherwise. -/
def chCursorAfter (asc : Bool) (sa pit : Nat) (r : CHRow) : Bool :=
  if asc then
    decide (sa < r.emission_time ∨ (r.emission_time = sa ∧ pit < r.event_id))
  else
    decide (r.emission_time < sa ∨ (r.emission_time = sa ∧ r.event_id < pit))

/-- Full `WHERE` predicate of `query_statements` (the cursor clause is added
only when `search_after` is populated, as in the source). -/
def chWhere (p : LRSParams) (r : CHRow) : Bool :=
  chMatches p r &&
    (match p.search_after with
     | some sa => chCursorAfter p.ascending sa (p.pit_id.getD 0) r
     | none => true)

/-- The composite sort key `(emission_time, event_id)`. -/
def chKey (r : CHRow) : Nat × Nat := (r.emission_time, r.event_id)

/-- `ORDER BY emission_time, event_id` in the chosen direction. -/
def rowLe (asc : Bool) (a b : CHRow) : Bool :=
  if asc then lexLe (chKey a) (chKey b) else lexLe (chKey b) (chKey a)

/-- Strict version of `rowLe`. -/
def rowLt (asc : Bool) (a b : CHRow) : Bool :=
  if asc then lexLt (chKey a) (chKey b) else lexLt (chKey b) (chKey a)

/-- `LIMIT {limit}` is appended only when `limit` is truthy (Python
truthiness: `None` and `0` mean no limit clause). -/
def applyLimit (lim : Option Nat) (l : List α) : List α :=
  match lim with
  | none => l
  | some n => if n = 0 then l else l.take n

/-- Result dataclass `StatementQueryResult(statements, pit_id, search_after)`. -/
structure StatementQueryResult where
  statements : List Statement
  pit_id : Option Nat
  search_after : Option Nat
deriving DecidableEq

/-- `ClickHouseLRSBackend.query_statements`: filter by the `WHERE` clauses,
sort by `(emission_time, event_id)` in the chosen direction, apply the
limit, project the `event` column, and emit the `(search_after, pit_id)`
cursor from the last returned row. -/
def query_statements (db : List CHRow) (p : LRSParams) : StatementQueryResult :=
  let response := applyLimit p.limit (sortLe (rowLe p.ascending) (db.filter (chWhere p)))
  { statements := response.map CHRow.event,
    pit_id := response.getLast?.map CHRow.event_id,
    search_after := response.getLast?.map CHRow.emission_time }

/-- Install a cursor into the otherwise-fixed query parameters. -/
def chSetCursor (p : LRSParams) (c : Option (Nat × Nat)) : LRSParams :=
  match c with
  | none => { p with search_after := none, pit_id := none }
  | some x => { p with search_after := some x.1, pit_id := some x.2 }

/-- The client-side pagination loop of the spec's correctness property:
call `query_statements`, stop on an empty page, otherwise feed the returned
`(search_after, pit_id)` back and continue.  `fuel` bounds the number of
round trips. -/
def chPaginateAux (db : List CHRow) (p : LRSParams) : Nat → Option (Nat × Nat) → List Statement
  | 0, _ => []
  | fuel + 1, c =>
    let res := query_statements db (chSetCursor p c)
    match res.statements, res.search_after, res.pit_id with
    | [], _, _ => []
    | sts, some sa, some pit => sts ++ chPaginateAux db p fuel (some (sa, pit))
    | sts, _, _ => sts

/-- Pagination starting from no cursor. -/
def chPaginate (db : List CHRow) (p : LRSParams) (fuel : Nat) : List Statement :=
  chPaginateAux db p fuel none

/-- Cursor predicate as a function of an optional cursor value. -/
def chAfter (asc : Bool) (c : Option (Nat × Nat)) (r : CHRow) : Bool :=
  match c with
  | none => true
  | some x => chCursorAfter asc x.1 x.2 r

/-- The page of rows a cursor-carrying call works from. -/
def chPage (db : List CHRow) (p : LRSParams) (c : Option (Nat × Nat)) : List CHRow :=
  applyLimit p.limit
    ((sortLe (rowLe p.ascending) (db.filter (chMatches p))).filter (chAfter p.ascending c))

theorem rowLe_trans (asc : Bool) (a b c : CHRow) :
    rowLe asc a b = true → rowLe asc b c = true → rowLe asc a c = true := by
  cases asc
  · exact fun h1 h2 => lexLe_trans (chKey c) (chKey b) (chKey a) h2 h1
  · exact fun h1 h2 => lexLe_trans (chKey a) (chKey b) (chKey c) h1 h2

theorem rowLe_total (asc : Bool) (a b : CHRow) :
    rowLe asc a b = false → rowLe asc b a = true := by
  cases asc
  · exact lexLe_total (chKey b) (chKey a)
  · exact lexLe_total (chKey a) (chKey b)

theorem rowLt_asymm (asc : Bool) (a b : CHRow) :
    rowLt asc a b = true → rowLt asc b a = true → False := by
  cases asc
  · exact fun h1 h2 => lexLt_asymm (chKey b) (chKey a) h1 h2
  · exact fun h1 h2 => lexLt_asymm (chKey a) (chKey b) h1 h2

theorem rowLe_ne_lt (asc : Bool) (a b : CHRow) :
    rowLe asc a b = true → chKey a ≠ chKey b → rowLt asc a b = true := by
  cases asc
  · exact fun h hne => lexLe_ne_lt (chKey b) (chKey a) h (Ne.symm hne)
  · exact fun h hne => lexLe_ne_lt (chKey a) (chKey b) h hne

/-- The cursor clause built from the last returned row is exactly the strict
order in the chosen direction against that row's sort key. -/
theorem chCursorAfter_key (asc : Bool) (e r : CHRow) :
    chCursorAfter asc e.emission_time e.event_id r = rowLt asc e r := by
  cases asc
  · simp [chCursorAfter, rowLt, lexLt, chKey]
  · simp only [chCursorAfter, rowLt, lexLt, chKey, if_true]
    rw [decide_eq_decide]
    omega

theorem chSetCursor_ascending (p : LRSParams) (c : Option (Nat × Nat)) :
    (chSetCursor p c).ascending = p.ascending := by
  cases c <;> rfl

theorem chSetCursor_limit (p : LRSParams) (c : Option (Nat × Nat)) :
    (chSetCursor p c).limit = p.limit := by
  cases c <;> rfl

/-- Installing a cursor splits the `WHERE` predicate into the fixed part and
the cursor part. -/
theorem chWhere_setCursor (p : LRSParams) (c : Option (Nat × Nat)) (r : CHRow) :
    chWhere (chSetCursor p c) r = (chMatches p r && chAfter p.ascending c r) := by
  cases c <;> rfl

theorem chKeys_nodup_of_ids {db : List CHRow} (h : (db.map CHRow.event_id).Nodup) :
    (db.map chKey).Nodup := by
  have h1 : db.Pairwise fun a b => a.event_id ≠ b.event_id := List.pairwise_map.mp h
  have h2 : db.Pairwise fun a b => chKey a ≠ chKey b :=
    h1.imp fun hab hk => hab (congrArg Prod.snd hk)
  exact List.pairwise_map.mpr h2

theorem chKeys_nodup_filter {l : List CHRow} (h : (l.map chKey).Nodup) (q : CHRow → Bool) :
    ((l.filter q).map chKey).Nodup :=
  List.Nodup.sublist (List.Sublist.map chKey (List.filter_sublist l)) h

/-- Sorting a list of rows with pairwise-distinct keys yields a strictly
increasing chain in the chosen direction. -/
theorem sortLe_pairwise_lt (asc : Bool) (l : List CHRow) (h : (l.map chKey).Nodup) :
    (sortLe (rowLe asc) l).Pairwise fun a b => rowLt asc a b = true := by
  have hle := pairwise_sortLe (rowLe asc) (rowLe_trans asc) (rowLe_total asc) l
  have hperm := perm_sortLe (rowLe asc) l
  have hne : (sortLe (rowLe asc) l).Pairwise fun a b => chKey a ≠ chKey b := by
    have h0 : l.Pairwise fun a b => chKey a ≠ chKey b := List.pairwise_map.mp h
    exact (List.Perm.pairwise_iff (fun hxy => Ne.symm hxy) hperm).mpr h0
  exact (hle.and hne).imp fun hab => rowLe_ne_lt asc _ _ hab.1 hab.2

/-- Sorting commutes with filtering (for rows with distinct keys): both sides
are sorted permutations of the same list under a strict order. -/
theorem sortLe_filter (asc : Bool) (X : List CHRow) (hX : (X.map chKey).Nodup)
    (q : CHRow → Bool) :
    sortLe (rowLe asc) (X.filter q) = (sortLe (rowLe asc) X).filter q := by
  apply eq_of_perm_of_pairwise_lt (fun a b => rowLt_asymm asc a b)
  · exact (perm_sortLe _ _).trans (List.Perm.filter q (perm_sortLe (rowLe asc) X).symm)
  · exact sortLe_pairwise_lt asc _ (chKeys_nodup_filter hX q)
  · exact List.Pairwise.sublist (List.filter_sublist _) (sortLe_pairwise_lt asc X hX)

/-- Normal form of a cursor-carrying `query_statements` call. -/
theorem query_statements_cursor (db : List CHRow) (p : LRSParams)
    (hkeys : (db.map chKey).Nodup) (c : Option (Nat × Nat)) :
    query_statements db (chSetCursor p c) =
      { statements := (chPage db p c).map CHRow.event,
        pit_id := (chPage db p c).getLast?.map CHRow.event_id,
        search_after := (chPage db p c).getLast?.map CHRow.emission_time } := by
  have hfil : db.filter (chWhere (chSetCursor p c)) =
      (db.filter (chMatches p)).filter (chAfter p.ascending c) := by
    rw [List.filter_filter]
    exact List.filter_congr fun r _ => (chWhere_setCursor p c r).trans (Bool.and_comm _ _)
  rw [query_statements, chPage, chSetCursor_ascending, chSetCursor_limit, hfil,
    ← sortLe_filter p.ascending (db.filter (chMatches p))
      (chKeys_nodup_filter hkeys (chMatches p)) (chAfter p.ascending c)]

/-- Filtering a strictly sorted list by "after the key of `e`" returns
exactly the part after `e`. -/
theorem chFilter_after_last (asc : Bool) (X D : List CHRow) (e : CHRow)
    (hS : (X ++ e :: D).Pairwise fun a b => rowLt asc a b = true) :
    (X ++ e :: D).filter (chCursorAfter asc e.emission_time e.event_id) = D := by
  rcases List.pairwise_append.mp hS with ⟨_, hED, hcross⟩
  rcases List.pairwise_cons.mp hED with ⟨heD, _⟩
  rw [List.filter_append, List.filter_cons]
  have h1 : X.filter (chCursorAfter asc e.emission_time e.event_id) = [] := by
    rw [List.filter_eq_nil_iff]
    intro a ha
    rw [chCursorAfter_key asc e a]
    intro hlt
    exact rowLt_asymm asc e a hlt (hcross a ha e (List.mem_cons_self e D))
  have h2 : chCursorAfter asc e.emission_time e.event_id e = false := by
    rw [chCursorAfter_key asc e e]
    rcases Bool.eq_false_or_eq_true (rowLt asc e e) with h | h
    · exact (rowLt_asymm asc e e h h).elim
    · exact h
  have h3 : D.filter (chCursorAfter asc e.emission_time e.event_id) = D := by
    rw [List.filter_eq_self]
    intro a ha
    rw [chCursorAfter_key asc e a]
    exact heD a ha
  rw [h1, h2, h3]
  simp

theorem applyLimit_take (lim : Option Nat) (T : List α) :
    ∃ n, 1 ≤ n ∧ applyLimit lim T = T.take n := by
  cases lim with
  | none =>
    refine ⟨T.length + 1, by omega, ?_⟩
    show T = T.take (T.length + 1)
    exact (List.take_of_length_le (by omega)).symm
  | some n =>
    cases n with
    | zero =>
      refine ⟨T.length + 1, by omega, ?_⟩
      rw [applyLimit, if_pos rfl]
      exact (List.take_of_length_le (by omega)).symm
    | succ k => exact ⟨k + 1, by omega, by rw [applyLimit, if_neg (by omega)]⟩

/-- One pagination round on an empty page stops the loop. -/
theorem chPaginateAux_succ_empty (db : List CHRow) (p : LRSParams) (fuel : Nat)
    (c : Option (Nat × Nat))
    (hq : (query_statements db (chSetCursor p c)).statements = []) :
    chPaginateAux db p (fuel + 1) c = [] := by
  simp only [chPaginateAux, hq]

/-- One pagination round on a nonempty page emits the page and recurses with
the cursor taken from its last row. -/
theorem chPaginateAux_succ_page (db : List CHRow) (p : LRSParams) (fuel : Nat)
    (c : Option (Nat × Nat)) (page : List CHRow) (e : CHRow)
    (hq : query_statements db (chSetCursor p c) =
      { statements := page.map CHRow.event,
        pit_id := page.getLast?.map CHRow.event_id,
        search_after := page.getLast?.map CHRow.emission_time })
    (hlast : page.getLast? = some e) :
    chPaginateAux db p (fuel + 1) c =
      page.map CHRow.event ++
        chPaginateAux db p fuel (some (e.emission_time, e.event_id)) := by
  cases page with
  | nil => simp at hlast
  | cons a l => simp only [chPaginateAux, hq, hlast, Option.map_some', List.map_cons]

/-- Master invariant of the pagination loop: if the remaining rows `T` form
the suffix of the sorted matching set singled out by the cursor `c`, and the
fuel covers them, the loop emits exactly their `event` projections. -/
theorem chPaginateAux_complete (db : List CHRow) (p : LRSParams)
    (hkeys : (db.map chKey).Nodup) :
    ∀ (fuel : Nat) (c : Option (Nat × Nat)) (X T : List CHRow),
      sortLe (rowLe p.ascending) (db.filter (chMatches p)) = X ++ T →
      (sortLe (rowLe p.ascending) (db.filter (chMatches p))).filter (chAfter p.ascending c) = T →
      T.length ≤ fuel →
      chPaginateAux db p fuel c = T.map CHRow.event := by
  intro fuel
  induction fuel with
  | zero =>
    intro c X T _ _ hlen
    have hT : T = [] := List.length_eq_zero.mp (Nat.le_zero.mp hlen)
    subst hT
    rfl
  | succ fuel ih =>
    intro c X T hsplit hfilter hlen
    have hq := query_statements_cursor db p hkeys c
    have hpage : chPage db p c = applyLimit p.limit T := by
      rw [chPage, hfilter]
    obtain ⟨n, hn1, htake⟩ := applyLimit_take p.limit T
    cases T with
    | nil =>
      have hempty : chPage db p c = [] := by
        rw [hpage, htake, List.take_nil]
      rw [chPaginateAux_succ_empty db p fuel c (by rw [hq, hempty]; rfl)]
      rfl
    | cons t T0 =>
      obtain ⟨k, hk⟩ : ∃ k, n = k + 1 := ⟨n - 1, by omega⟩
      subst hk
      have hLcons : (t :: T0).take (k + 1) = t :: T0.take k := List.take_succ_cons
      have hLne : (t :: T0).take (k + 1) ≠ [] := by rw [hLcons]; simp
      set L := (t :: T0).take (k + 1) with hL
      set e := L.getLast hLne with he
      have hPL : L.dropLast ++ [e] = L := List.dropLast_append_getLast hLne
      have hlast : L.getLast? = some e := List.getLast?_eq_getLast L hLne
      have hpage' : chPage db p c = L := by rw [hpage, htake]
      have hsplit' : sortLe (rowLe p.ascending) (db.filter (chMatches p)) =
          (X ++ L.dropLast) ++ e :: (t :: T0).drop (k + 1) := by
        rw [hsplit]
        conv_lhs => rw [← List.take_append_drop (k + 1) (t :: T0)]
        rw [← hL, ← hPL]
        simp [List.append_assoc]
      have hpair : ((X ++ L.dropLast) ++ e :: (t :: T0).drop (k + 1)).Pairwise
          (fun a b => rowLt p.ascending a b = true) := by
        rw [← hsplit']
        exact sortLe_pairwise_lt p.ascending _ (chKeys_nodup_filter hkeys (chMatches p))
      have hfilter' : (sortLe (rowLe p.ascending) (db.filter (chMatches p))).filter
          (chAfter p.ascending (some (e.emission_time, e.event_id))) =
          (t :: T0).drop (k + 1) := by
        rw [hsplit']
        exact chFilter_after_last p.ascending (X ++ L.dropLast) _ e hpair
      have hlen' : ((t :: T0).drop (k + 1)).length ≤ fuel := by
        rw [List.length_drop]
        have : (t :: T0).length ≤ fuel + 1 := hlen
        omega
      have hsplit2 : sortLe (rowLe p.ascending) (db.filter (chMatches p)) =
          ((X ++ L.dropLast) ++ [e]) ++ (t :: T0).drop (k + 1) := by
        rw [hsplit']
        simp
      have hrec := ih (some (e.emission_time, e.event_id)) ((X ++ L.dropLast) ++ [e]) _
        hsplit2 hfilter' hlen'
      rw [chPaginateAux_succ_page db p fuel c L e (by rw [hq, hpage']) hlast, hrec,
        ← List.map_append, hL, List.take_append_drop]

/-- Claim C1 (amended): for the column-store backend, with pairwise-distinct
event ids, repeatedly calling `query_statements` with all parameters fixed
and feeding each result's `(search_after, pit_id)` cursor into the next call
concatenates to exactly the rows matching the predicate, in
`(emission_time, event_id)` order in the chosen direction, with no
duplicates and no omissions — including when rows share an `emission_time`.
The document-store backend's `_id`-only cursor does not satisfy this (see
the counterexample); the property holds of the composite-cursor column
store. -/
theorem clickhouse_cursor_completeness (db : List CHRow) (p : LRSParams)
    (hids : (db.map CHRow.event_id).Nodup) (fuel : Nat)
    (hfuel : (db.filter (chMatches p)).length ≤ fuel) :
    chPaginate db p fuel =
      (sortLe (rowLe p.ascending) (db.filter (chMatches p))).map CHRow.event := by
  have hkeys := chKeys_nodup_of_ids hids
  have hlen : (sortLe (rowLe p.ascending) (db.filter (chMatches p))).length ≤ fuel := by
    rw [(perm_sortLe (rowLe p.ascending) (db.filter (chMatches p))).length_eq]
    exact hfuel
  refine chPaginateAux_complete db p hkeys fuel none [] _ rfl ?_ hlen
  rw [List.filter_eq_self]
  intro a _
  rfl

/-- Event payload of the first witness row. -/
def c1Event1 : Statement :=
  { id := 9, timestamp := 100, actorAccountName := accountNameLit,
    verbId := openidLit, objectType := activityLit, objectId := openidLit }

/-- Event payload of the second witness row. -/
def c1Event2 : Statement :=
  { id := 5, timestamp := 50, actorAccountName := accountNameLit,
    verbId := openidLit, objectType := activityLit, objectId := openidLit }

/-- Event payload of the third witness row. -/
def c1Event3 : Statement :=
  { id := 3, timestamp := 50, actorAccountName := accountNameLit,
    verbId := openidLit, objectType := activityLit, objectId := openidLit }

/-- The spec scenario S1 shape: three rows, two sharing an emission time and
distinguished only by `event_id`. -/
def c1Db : List CHRow :=
  [{ event_id := 9, emission_time := 100, event := c1Event1 },
   { event_id := 5, emission_time := 50, event := c1Event2 },
   { event_id := 3, emission_time := 50, event := c1Event3 }]

/-- Ascending pagination with `limit = 1`, as in scenario S1. -/
def c1Params : LRSParams := { ascending := true, limit := some 1 }

/-- Claim C1, witness: pagination with `limit = 1` over the three S1 rows
(two of them sharing an emission time) returns all three, tie-broken by
`event_id`, with no duplicate and no omission. -/
theorem clickhouse_cursor_completeness_witness :
    ((c1Db.map CHRow.event_id).Nodup ∧
        (c1Db.filter (chMatches c1Params)).length ≤ 3) ∧
      chPaginate c1Db c1Params 3 =
        (sortLe (rowLe c1Params.ascending)
          (c1Db.filter (chMatches c1Params))).map CHRow.event ∧
      chPaginate c1Db c1Params 3 = [c1Event3, c1Event2, c1Event1] :=
  ⟨⟨by decide, by decide⟩,
    clickhouse_cursor_completeness c1Db c1Params (by decide) 3 (by decide),
    by decide⟩

/-! ## The async Mongo query engine (`AsyncMongoDatabase.query_statements`)

Documents carry a driver-assigned `_id` (`oid`, a `Nat` standing for the
`ObjectId`) and the statement under `_source`.  The engine sorts by
`(_source.timestamp, _id)` but its cursor compares `_id` alone
(`{"_id": {"$gt"/"$lt": ObjectId(search_after)}}`), and it returns the last
`_id` as `search_after` with `pit_id = None`. -/

structure MongoDoc where
  oid : Nat
  source : Statement
deriving DecidableEq

/-- The non-cursor filters of `AsyncMongoDatabase.query_statements` (same
per-parameter clauses as the column store, read off `_source`). -/
def mongoMatches (p : LRSParams) (d : MongoDoc) : Bool :=
  (match p.statementId with
   | some v => decide (d.source.id = v)
   | none => true) &&
  (match p.agent with
   | some v => d.source.actorAccountName == v
   | none => true) &&
  (match p.verb with
   | some v => d.source.verbId == v
   | none => true) &&
  (match p.activity with
   | some v => (d.source.objectType == activityLit) && (d.source.objectId == v)
   | none => true) &&
  (match p.since with
   | some v => decide (v < d.source.timestamp)
   | none => true) &&
  (match p.until_ with
   | some v => decide (d.source.timestamp ≤ v)
   | none => true)

/-- The `_id`-only cursor filter. -/
def mongoAfter (asc : Bool) (sa : Nat) (d : MongoDoc) : Bool :=
  if asc then decide (sa < d.oid) else decide (d.oid < sa)

def mongoWhere (p : LRSParams) (d : MongoDoc) : Bool :=
  mongoMatches p d &&
    (match p.search_after with
     | some sa => mongoAfter p.ascending sa d
     | none => true)

/-- Sort key `(_source.timestamp, _id)`. -/
def mongoKey (d : MongoDoc) : Nat × Nat := (d.source.timestamp, d.oid)

def mongoLe (asc : Bool) (a b : MongoDoc) : Bool :=
  if asc then lexLe (mongoKey a) (mongoKey b) else lexLe (mongoKey b) (mongoKey a)

/-- `AsyncMongoDatabase.query_statements`. -/
def mongo_query_statements (db : List MongoDoc) (p : LRSParams) : StatementQueryResult :=
  let response := applyLimit p.limit (sortLe (mongoLe p.ascending) (db.filter (mongoWhere p)))
  { statements := response.map MongoDoc.source,
    pit_id := none,
    search_after := response.getLast?.map MongoDoc.oid }

def mongoSetCursor (p : LRSParams) (c : Option Nat) : LRSParams :=
  { p with search_after := c, pit_id := none }

/-- The same client pagination loop, feeding the returned
`(search_after, pit_id)` back into the next call. -/
def mongoPaginateAux (db : List MongoDoc) (p : LRSParams) : Nat → Option Nat → List Statement
  | 0, _ => []
  | fuel + 1, c =>
    let res := mongo_query_statements db (mongoSetCursor p c)
    match res.statements, res.search_after with
    | [], _ => []
    | sts, some sa => sts ++ mongoPaginateAux db p fuel (some sa)
    | sts, none => sts

def mongoPaginate (db : List MongoDoc) (p : LRSParams) (fuel : Nat) : List Statement :=
  mongoPaginateAux db p fuel none

/-- Statement stored with the earlier `_id` but the later timestamp. -/
def c1MongoLate : Statement :=
  { id := 20, timestamp := 10, actorAccountName := accountNameLit,
    verbId := openidLit, objectType := activityLit, objectId := openidLit }

/-- Statement stored with the later `_id` but the earlier timestamp. -/
def c1MongoEarly : Statement :=
  { id := 21, timestamp := 5, actorAccountName := accountNameLit,
    verbId := openidLit, objectType := activityLit, objectId := openidLit }

/-- Two documents whose `_id` order disagrees with their timestamp order. -/
def c1MongoDb : List MongoDoc :=
  [{ oid := 1, source := c1MongoLate }, { oid := 2, source := c1MongoEarly }]

def c1MongoParams : LRSParams := { ascending := true, limit := some 1 }

/-- Claim C1, counterexample: on the document-store backend, with two
documents whose `_id` order disagrees with their timestamp order, feeding
the cursor forward yields only one of the two matching statements — the
`_id`-only cursor filter skips the document whose `_id` precedes the cursor
even though its timestamp orders it later.  The claim as stated (for any
populated backend) is therefore false. -/
theorem c1_counterexample :
    (c1MongoDb.map MongoDoc.oid).Nodup ∧
      mongoPaginate c1MongoDb c1MongoParams 5 = [c1MongoEarly] ∧
      mongoPaginate c1MongoDb c1MongoParams 5 ≠
        (sortLe (mongoLe c1MongoParams.ascending)
          (c1MongoDb.filter (mongoMatches c1MongoParams))).map MongoDoc.source := by
  refine ⟨by decide, by decide, ?_⟩
  decide

/-! ## The chunked write pipelines

`ralph/backends/data/base.py` is not under `src/`; the operation-type
enumeration it declares is modelled from the spec.  The driver calls
(`client.insert`, `insert_many`, `streaming_bulk`) are modelled as outcome
oracles: a function deciding, for a batch or document, whether the driver
reports a failure and with which payload. -/

/-- Modelled from the spec: the write operation types of the backend
contract (`BaseOperationType` lives in `ralph/backends/data/base.py`,
which is not under `src/`; the spec lifecycle in section 3 names
`CREATE`, `INDEX`, `UPDATE`, `DELETE`, `APPEND`). -/
inductive BaseOperationType where
  | index
  | create
  | delete
  | update
  | append
deriving DecidableEq

/-- The `.name` of an operation member, used in error messages. -/
def opName : BaseOperationType → String
  | .index => "INDEX"
  | .create => "CREATE"
  | .delete => "DELETE"
  | .update => "UPDATE"
  | .append => "APPEND"

/-- An input record of the write path; only the `id` and `timestamp` keys
are inspected by the ingestion code, so presence/absence of those two keys
is what is modelled (`none` also stands for a Python-falsy value such as
the empty string, which `statement.get("id", "")` treats like absence). -/
structure RawStatement where
  id : Option Nat := none
  timestamp : Option Nat := none
deriving DecidableEq

/-- The ClickHouse insert tuple `(event_id, emission_time, event,
event_str)`; `event_str` is `json.dumps(event)` and carries no information
beyond `event`, so it is not repeated here. -/
structure CHDocument where
  event_id : Nat
  emission_time : Nat
  event : RawStatement
deriving DecidableEq

/-- Payload of a driver-raised error (`args` tuple of the Python exception). -/
structure DriverError where
  args : List String
deriving DecidableEq

/-- Message of the in-batch duplicate check of
`ClickHouseDataBackend.bulk_import`. -/
def dupIdsMsg : String := "Duplicate IDs found in batch"

/-- `ClickHouseDataBackend.bulk_import`: reject batches with duplicate
`event_id`s, then attempt the driver insert (outcome given by the
`insertFails` oracle).  Both failure kinds are caught by the same handler:
re-raised as `BackendException(*error.args)` when `ignore_errors` is false,
otherwise logged and converted into a `0` success count. -/
def chBulkImport (insertFails : List CHDocument → Option DriverError)
    (batch : List CHDocument) (ignore_errors : Bool) : Except BackendErr Nat :=
  let inner : Except DriverError Nat :=
    if (batch.map CHDocument.event_id).dedup.length ≠ batch.length then
      Except.error { args := [dupIdsMsg] }
    else
      match insertFails batch with
      | some e => Except.error e
      | none => Except.ok batch.length
  match inner with
  | Except.ok n => Except.ok n
  | Except.error e =>
    if ignore_errors then Except.ok 0
    else Except.error (BackendErr.backend e.args)

/-- Message of the `to_documents` id/timestamp validation (the source
message also interpolates the offending statement). -/
def invalidStatementMsg : String :=
  "Statement has an invalid or missing id or timestamp field"

/-- Tail of the operation-type rejection messages of the ClickHouse write. -/
def opNotAllowedTail : String := " operation_type is not allowed."

def opNotAllowedMsg (op : BaseOperationType) : String := opName op ++ opNotAllowedTail

/-- Group a list into consecutive chunks; `chunksOf n` with `n ≥ 1` yields
runs of `n` with a final partial run, mirroring the accumulate-and-flush
loop of the write methods. -/
def chunksOf (n : Nat) : List α → List (List α)
  | [] => []
  | a :: l => (a :: l.take (n - 1)) :: chunksOf n (l.drop (n - 1))
termination_by l => l.length
decreasing_by simp [List.length_drop]; omega

/-- The `CREATE` loop of `ClickHouseDataBackend.write`: the `to_documents`
generator (id/timestamp validation and tuple construction, with `uuid4()`
modelled by the `freshId` oracle over the statement index) interleaved with
the accumulate-and-flush batching, exactly as in the source: each statement
is validated (skipping or raising `BadFormat` per `ignore_errors`), appended
to the current batch, and a full batch is flushed through `bulk_import`,
with a final flush of the partial batch. -/
def chWriteLoop (insertFails : List CHDocument → Option DriverError)
    (freshId : Nat → Nat) (op : BaseOperationType) (ignore_errors : Bool)
    (cs : Nat) :
    List RawStatement → Nat → List CHDocument → Nat → Except BackendErr Nat
  | [], _, batch, success =>
    match batch with
    | [] => Except.ok success
    | _ :: _ => (chBulkImport insertFails batch ignore_errors).map (success + ·)
  | s :: rest, i, batch, success =>
    if s.timestamp.isNone || (op == BaseOperationType.create && s.id.isNone) then
      if ignore_errors then
        chWriteLoop insertFails freshId op ignore_errors cs rest (i + 1) batch success
      else
        Except.error (BackendErr.badFormat invalidStatementMsg)
    else
      let doc : CHDocument :=
        { event_id := s.id.getD (freshId i), emission_time := s.timestamp.getD 0,
          event := s }
      let batch' := batch ++ [doc]
      if batch'.length < cs then
        chWriteLoop insertFails freshId op ignore_errors cs rest (i + 1) batch' success
      else
        match chBulkImport insertFails batch' ignore_errors with
        | Except.error e => Except.error e
        | Except.ok n =>
          chWriteLoop insertFails freshId op ignore_errors cs rest (i + 1) [] (success + n)

/-- `ClickHouseDataBackend.write` (object input; the bytes branch routes
through a JSON line decoder first and is not needed by any claim): empty
input returns `0` before any other check; a missing/falsy `operation_type`
defaults to `CREATE` and a missing/falsy `chunk_size` to `500`; only
`CREATE` proceeds, every other operation raises
`BackendParameterException`. -/
def chWrite (insertFails : List CHDocument → Option DriverError)
    (freshId : Nat → Nat) (data : List RawStatement) (chunk_size : Option Nat)
    (ignore_errors : Bool) (operation_type : Option BaseOperationType) :
    Except BackendErr Nat :=
  let op := operation_type.getD BaseOperationType.create
  let cs := match chunk_size with
    | none => 500
    | some 0 => 500
    | some (k + 1) => k + 1
  match data with
  | [] => Except.ok 0
  | _ :: _ =>
    if op == BaseOperationType.create then
      chWriteLoop insertFails freshId op ignore_errors cs data 0 [] 0
    else
      Except.error (BackendErr.param (opNotAllowedMsg op))

/-- Message of the `APPEND` rejection in `ESDataBackend.write`. -/
def appendNotSupportedMsg : String := "Append operation_type is not supported."

/-- The fixed part of a `BulkIndexError`'s `args` (driver-side payload; the
real first arg also interpolates the failing count). -/
def bulkIndexErrorMsg : String := "document(s) failed to index."

def bulkIndexErrorArgs : List String := [bulkIndexErrorMsg]

/-- Tail of the success-count string the write methods append to re-raised
errors (`f"{count} succeeded writes"`). -/
def succeededWritesTail : String := " succeeded writes"

def succeededWritesMsg (n : Nat) : String := toString n ++ succeededWritesTail

/-- The `streaming_bulk` helper as observed by `ESDataBackend.write`: the
documents are processed in chunks; each document succeeds or fails per the
`docFails` oracle; successes of a chunk are yielded (counted) before any
error of that chunk is raised; with `raise_on_error` false, failures are
yielded as zero-success items and processing continues.  Returns the
success count and whether a `BulkIndexError` was raised. -/
def esProcessChunks (docFails : RawStatement → Bool) (raiseOn : Bool) :
    List (List RawStatement) → Nat → Nat × Bool
  | [], count => (count, false)
  | chunk :: rest, count =>
    let count' := count + (chunk.filter fun d => !(docFails d)).length
    if raiseOn && chunk.any docFails then (count', true)
    else esProcessChunks docFails raiseOn rest count'

/-- `ESDataBackend.write`: empty input returns `0` before any other check;
the operation defaults to the backend's default (`INDEX`); `APPEND` is
rejected with `BackendParameterException`; everything else flows into
`streaming_bulk`, and a `BulkIndexError` is re-raised as
`BackendException(*error.args, f"{count} succeeded writes")`. -/
def esWrite (docFails : RawStatement → Bool) (data : List RawStatement)
    (chunk_size : Option Nat) (ignore_errors : Bool)
    (operation_type : Option BaseOperationType) : Except BackendErr Nat :=
  match data with
  | [] => Except.ok 0
  | _ :: _ =>
    let op := operation_type.getD BaseOperationType.index
    if op == BaseOperationType.append then
      Except.error (BackendErr.param appendNotSupportedMsg)
    else
      let r := esProcessChunks docFails (!ignore_errors)
        (chunksOf (chunk_size.getD 500) data) 0
      if r.2 then
        Except.error (BackendErr.backend (bulkIndexErrorArgs ++ [succeededWritesMsg r.1]))
      else
        Except.ok r.1

/-- Outcome of a Mongo `insert_many` call: `nInserted` is the count the
driver reports written before the bulk write failed
(`error.details["nInserted"]`). -/
structure BulkWriteError where
  nInserted : Nat
  args : List String
deriving DecidableEq

/-- `AsyncMongoDatabase.bulk_import`: on a `BulkWriteError`, either re-raise
as `BackendException(*error.args, f"{nInserted} succeeded writes")` or — with
`ignore_errors` — log a warning and return the driver-reported `nInserted`
of the failed chunk; on success return the full batch length. -/
def mongoBulkImport (insertOutcome : List RawStatement → Option BulkWriteError)
    (batch : List RawStatement) (ignore_errors : Bool) : Except BackendErr Nat :=
  match insertOutcome batch with
  | some e =>
    if !ignore_errors then
      Except.error (BackendErr.backend (e.args ++ [succeededWritesMsg e.nInserted]))
    else
      Except.ok e.nInserted
  | none => Except.ok batch.length

/-- Beginning of the `LDPDataBackend.write` message. -/
def ldpReadOnlyMsgIntro : String := "LDP data backend is read-only, cannot write to "

/-- Python renders a `None` target as the string `None` in `msg % target`. -/
def noneLit : String := "None"

def ldpReadOnlyMsg (target : Option String) : String :=
  ldpReadOnlyMsgIntro ++ (match target with | some t => t | none => noneLit)

/-- `LDPDataBackend.write`: unconditionally raises `NotImplementedError`. -/
def ldpWrite (data : List RawStatement) (target : Option String)
    (chunk_size : Option Nat) (ignore_errors : Bool)
    (operation_type : Option BaseOperationType) : Except BackendErr Nat :=
  Except.error (BackendErr.notImplemented (ldpReadOnlyMsg target))

/-- Claim C7: a batch containing two tuples with the same `event_id` is
rejected as a whole by the column-store bulk import — no row of the batch
is counted — and `ignore_errors = true` converts the rejection into a
zero-success return instead of raising. -/
theorem c7_duplicate_rejection (insertFails : List CHDocument → Option DriverError)
    (batch : List CHDocument) (ignore_errors : Bool)
    (hdup : ¬ (batch.map CHDocument.event_id).Nodup) :
    chBulkImport insertFails batch ignore_errors =
      (if ignore_errors then Except.ok 0
       else Except.error (BackendErr.backend [dupIdsMsg])) := by
  have hlen : (batch.map CHDocument.event_id).dedup.length ≠ batch.length := by
    intro h
    apply hdup
    have hmap : (batch.map CHDocument.event_id).length = batch.length :=
      List.length_map _ _
    have heq : (batch.map CHDocument.event_id).dedup = batch.map CHDocument.event_id :=
      (List.dedup_sublist _).eq_of_length (by rw [h, hmap])
    rw [← heq]
    exact List.nodup_dedup _
  rw [chBulkImport]
  simp only [if_pos hlen]

/-- An insert oracle reporting no driver failure. -/
def noInsertFailure : List CHDocument → Option DriverError := fun _ => none

def c7Doc1 : CHDocument :=
  { event_id := 7, emission_time := 1, event := { id := some 7, timestamp := some 1 } }

def c7Doc2 : CHDocument :=
  { event_id := 7, emission_time := 2, event := { id := some 7, timestamp := some 2 } }

/-- A batch with two tuples sharing `event_id = 7`. -/
def c7Batch : List CHDocument := [c7Doc1, c7Doc2]

/-- Claim C7, witness: the duplicate batch is rejected as a whole; with
`ignore_errors` the rejection becomes a zero-success return. -/
theorem c7_duplicate_rejection_witness :
    chBulkImport noInsertFailure c7Batch true = Except.ok 0 ∧
      chBulkImport noInsertFailure c7Batch false =
        Except.error (BackendErr.backend [dupIdsMsg]) := by
  have h1 := c7_duplicate_rejection noInsertFailure c7Batch true (by decide)
  have h2 := c7_duplicate_rejection noInsertFailure c7Batch false (by decide)
  exact ⟨by simpa using h1, by simpa using h2⟩

theorem chunksOf_flatten (n : Nat) (l : List α) : (chunksOf n l).flatten = l := by
  generalize hk : l.length = k
  induction k using Nat.strong_induction_on generalizing l with
  | _ k ih =>
    cases l with
    | nil => rw [chunksOf]; rfl
    | cons a t =>
      rw [chunksOf]
      simp only [List.flatten_cons]
      rw [ih (t.drop (n - 1)).length ?_ (t.drop (n - 1)) rfl]
      · rw [List.cons_append, List.take_append_drop]
      · rw [List.length_drop]
        simp only [List.length_cons] at hk
        omega

theorem esProcessChunks_noraise (docFails : RawStatement → Bool) :
    ∀ (chunks : List (List RawStatement)) (count : Nat),
      esProcessChunks docFails false chunks count =
        (count + (chunks.flatten.filter fun d => !(docFails d)).length, false) := by
  intro chunks
  induction chunks with
  | nil => intro count; simp [esProcessChunks]
  | cons c rest ih =>
    intro count
    rw [esProcessChunks]
    simp only [Bool.false_and, Bool.false_eq_true, if_false, ih, List.flatten_cons,
      List.filter_append, List.length_append]
    rw [Nat.add_assoc]

theorem esProcessChunks_raises (docFails : RawStatement → Bool) :
    ∀ (chunks : List (List RawStatement)) (count : Nat),
      (∃ c ∈ chunks, ∃ d ∈ c, docFails d = true) →
      (esProcessChunks docFails true chunks count).2 = true := by
  intro chunks
  induction chunks with
  | nil =>
    intro count h
    rcases h with ⟨c, hc, _⟩
    exact absurd hc (List.not_mem_nil c)
  | cons c rest ih =>
    intro count h
    rw [esProcessChunks]
    by_cases hany : c.any docFails = true
    · simp [hany]
    · rcases h with ⟨c', hc', d, hd, hfail⟩
      rcases List.mem_cons.mp hc' with rfl | hc'
      · exact absurd (List.any_eq_true.mpr ⟨d, hd, hfail⟩) hany
      · simp only [Bool.not_eq_true] at hany
        simp only [hany, Bool.and_false, Bool.false_eq_true, if_false]
        exact ih _ ⟨c', hc', d, hd, hfail⟩

/-- Claim C3 (amended): chunks are flushed independently, but the three
backends account for a failed flush differently.  Column store: with
`ignore_errors` a failed chunk contributes exactly zero, and without it the
raise re-propagates the driver's own `args` with no success count attached.
Document store: with `ignore_errors` a failed chunk contributes the
driver-reported `nInserted` of that chunk (not necessarily zero), and
without it the raise appends `"{nInserted} succeeded writes"` — the failing
chunk's internal count, not the cumulative one.  Search cluster: with
`ignore_errors` each failed document contributes zero (the count is exactly
the number of non-failing documents), and without it the raise appends
`"{count} succeeded writes"` with the cumulative success count. -/
theorem c3_amended :
    (∀ (insertFails : List CHDocument → Option DriverError) (batch : List CHDocument)
        (e : DriverError),
        (batch.map CHDocument.event_id).dedup.length = batch.length →
        insertFails batch = some e →
        chBulkImport insertFails batch true = Except.ok 0 ∧
          chBulkImport insertFails batch false = Except.error (BackendErr.backend e.args))
    ∧ (∀ (insertOutcome : List RawStatement → Option BulkWriteError)
          (batch : List RawStatement) (e : BulkWriteError),
          insertOutcome batch = some e →
          mongoBulkImport insertOutcome batch true = Except.ok e.nInserted ∧
            mongoBulkImport insertOutcome batch false =
              Except.error (BackendErr.backend (e.args ++ [succeededWritesMsg e.nInserted])))
    ∧ (∀ (docFails : RawStatement → Bool) (data : List RawStatement) (cs : Option Nat)
          (op : Option BaseOperationType),
          data ≠ [] →
          (op.getD BaseOperationType.index == BaseOperationType.append) = false →
          esWrite docFails data cs true op =
              Except.ok ((data.filter fun d => !(docFails d)).length)
            ∧ ((∃ d ∈ data, docFails d = true) →
                ∃ k, esWrite docFails data cs false op =
                  Except.error (BackendErr.backend
                    (bulkIndexErrorArgs ++ [succeededWritesMsg k])))) := by
  refine ⟨?_, ?_, ?_⟩
  · intro insertFails batch e hnodup hfail
    have hcond : ¬ (batch.map CHDocument.event_id).dedup.length ≠ batch.length :=
      fun hc => hc hnodup
    constructor <;> simp [chBulkImport, if_neg hcond, hfail]
  · intro insertOutcome batch e h
    constructor <;> simp [mongoBulkImport, h]
  · intro docFails data cs op hne hop
    obtain ⟨a, rest, rfl⟩ := List.exists_cons_of_ne_nil hne
    constructor
    · rw [esWrite]
      simp only [hop, Bool.false_eq_true, if_false, Bool.not_true]
      rw [esProcessChunks_noraise docFails (chunksOf (cs.getD 500) (a :: rest)) 0,
        chunksOf_flatten]
      simp
    · intro hfailex
      rcases hfailex with ⟨d, hd, hdf⟩
      have hd' : d ∈ (chunksOf (cs.getD 500) (a :: rest)).flatten := by
        rw [chunksOf_flatten]; exact hd
      rcases List.mem_flatten.mp hd' with ⟨c, hc, hdc⟩
      have hraise := esProcessChunks_raises docFails
        (chunksOf (cs.getD 500) (a :: rest)) 0 ⟨c, hc, d, hdc, hdf⟩
      refine ⟨(esProcessChunks docFails true (chunksOf (cs.getD 500) (a :: rest)) 0).1, ?_⟩
      rw [esWrite]
      simp only [hop, Bool.false_eq_true, if_false, Bool.not_false]
      rw [if_pos hraise]

/-- Connection-level driver message used by the counterexample. -/
def boomMsg : String := "Connection reset"

def c3DriverErr : DriverError := { args := [boomMsg] }

/-- Oracle failing every batch that contains the tuple with id `2`. -/
def c3ChOracle : List CHDocument → Option DriverError :=
  fun b => if (b.map CHDocument.event_id).contains 2 then some c3DriverErr else none

def c3ChDoc1 : RawStatement := { id := some 1, timestamp := some 1 }

def c3ChDoc2 : RawStatement := { id := some 2, timestamp := some 2 }

def c3ChData : List RawStatement := [c3ChDoc1, c3ChDoc2]

/-- Driver message of the Mongo bulk-write error in the counterexample. -/
def mongoBulkMsg : String := "batch op errors occurred"

def c3MongoErr : BulkWriteError := { nInserted := 3, args := [mongoBulkMsg] }

def c3MongoOracle : List RawStatement → Option BulkWriteError := fun _ => some c3MongoErr

def c3MongoBatch : List RawStatement := [c3ChDoc1, c3ChDoc2]

/-- Claim C3, counterexample: (a) a two-chunk column-store write whose
second flush fails with `ignore_errors = false` raises the underlying
driver error unchanged — `"1 succeeded writes"` (one row was written by the
first chunk) appears nowhere in it; (b) a failed document-store chunk under
`ignore_errors = true` contributes the driver-reported `nInserted = 3`,
not zero.  Both refute the claim as stated. -/
theorem c3_counterexample :
    chWrite c3ChOracle (fun i => i) c3ChData (some 1) false
        (some BaseOperationType.create) = Except.error (BackendErr.backend [boomMsg]) ∧
      succeededWritesMsg 1 ∉ [boomMsg] ∧
      mongoBulkImport c3MongoOracle c3MongoBatch true = Except.ok 3 ∧
      (3 : Nat) ≠ 0 := by
  refine ⟨by decide, by decide, by decide, by decide⟩

/-- Oracle failing exactly the statement with id `2`. -/
def c3EsFails : RawStatement → Bool := fun d => d.id == some 2

/-- A ClickHouse tuple whose batch the `c3ChOracle` rejects. -/
def c3FailDoc : CHDocument := { event_id := 2, emission_time := 2, event := c3ChDoc2 }

/-- Claim C3, witness: concrete instances of the amended accounting — the
column store converts a failed chunk into zero (or re-raises the bare driver
args), the document store returns/attaches the driver's `nInserted = 3`,
and the search cluster counts exactly the non-failing documents and attaches
a cumulative success count when raising. -/
theorem c3_amended_witness :
    chBulkImport c3ChOracle [c3FailDoc] true = Except.ok 0 ∧
      chBulkImport c3ChOracle [c3FailDoc] false =
        Except.error (BackendErr.backend [boomMsg]) ∧
      mongoBulkImport c3MongoOracle c3MongoBatch true = Except.ok 3 ∧
      mongoBulkImport c3MongoOracle c3MongoBatch false =
        Except.error (BackendErr.backend [mongoBulkMsg, succeededWritesMsg 3]) ∧
      esWrite c3EsFails c3ChData (some 1) true none = Except.ok 1 ∧
      (∃ k, esWrite c3EsFails c3ChData (some 1) false none =
        Except.error (BackendErr.backend (bulkIndexErrorArgs ++ [succeededWritesMsg k]))) := by
  have hch := c3_amended.1 c3ChOracle [c3FailDoc] c3DriverErr (by decide) (by decide)
  have hm := c3_amended.2.1 c3MongoOracle c3MongoBatch c3MongoErr rfl
  have hes := c3_amended.2.2 c3EsFails c3ChData (some 1) none (by decide) (by decide)
  exact ⟨hch.1, hch.2, hm.1, hm.2, hes.1, hes.2 ⟨c3ChDoc2, by decide, by decide⟩⟩

/-- Claim C4, counterexample: on an empty input iterable both the
column-store and the search-cluster writes return `0` before the
operation-type check runs, so a disallowed operation (`DELETE` on the
column store, `APPEND` on the search cluster) does not raise.  The claim
as stated over every input iterable is therefore false. -/
theorem c4_counterexample :
    chWrite noInsertFailure (fun i => i) [] none false
        (some BaseOperationType.delete) = Except.ok 0 ∧
      esWrite (fun _ => false) [] none false
        (some BaseOperationType.append) = Except.ok 0 := by
  exact ⟨rfl, rfl⟩

/-- Claim C4 (amended): for every non-empty input iterable, the column-store
write raises `BackendParameterException` for every operation type other than
`CREATE`; the search-cluster write rejects exactly `APPEND` (no other
operation produces a parameter error); and the log-archive write always
raises (read-only), for any input including the empty one. -/
theorem c4_amended (data : List RawStatement) (hne : data ≠ []) :
    (∀ (insertFails : List CHDocument → Option DriverError) (freshId : Nat → Nat)
        (cs : Option Nat) (ig : Bool) (op : BaseOperationType),
        op ≠ BaseOperationType.create →
        chWrite insertFails freshId data cs ig (some op) =
          Except.error (BackendErr.param (opNotAllowedMsg op)))
    ∧ (∀ (docFails : RawStatement → Bool) (cs : Option Nat) (ig : Bool),
        esWrite docFails data cs ig (some BaseOperationType.append) =
          Except.error (BackendErr.param appendNotSupportedMsg))
    ∧ (∀ (docFails : RawStatement → Bool) (cs : Option Nat) (ig : Bool)
          (op : BaseOperationType), op ≠ BaseOperationType.append →
        ∀ msg, esWrite docFails data cs ig (some op) ≠
          Except.error (BackendErr.param msg))
    ∧ (∀ (data2 : List RawStatement) (target : Option String) (cs : Option Nat)
          (ig : Bool) (op : Option BaseOperationType),
        ldpWrite data2 target cs ig op =
          Except.error (BackendErr.notImplemented (ldpReadOnlyMsg target))) := by
  obtain ⟨a, rest, rfl⟩ := List.exists_cons_of_ne_nil hne
  refine ⟨?_, ?_, ?_, fun _ _ _ _ _ => rfl⟩
  · intro insertFails freshId cs ig op hop
    have hbeq : (op == BaseOperationType.create) = false := by
      cases op <;> simp_all
    simp [chWrite, hbeq]
  · intro docFails cs ig
    rfl
  · intro docFails cs ig op hop msg
    have hbeq : (op == BaseOperationType.append) = false := by
      cases op <;> simp_all
    rw [esWrite]
    simp only [Option.getD_some, hbeq, Bool.false_eq_true, if_false]
    split <;> simp

/-- Input record for the operation-type witness. -/
def c4Data : List RawStatement := [{ id := some 1, timestamp := some 1 }]

/-- Claim C4, witness: on a one-record input, `UPDATE` is rejected by the
column store, `APPEND` by the search cluster, `DELETE` is not
parameter-rejected by the search cluster, and the log-archive write raises
read-only. -/
theorem c4_amended_witness :
    chWrite noInsertFailure (fun i => i) c4Data none false
        (some BaseOperationType.update) =
        Except.error (BackendErr.param (opNotAllowedMsg BaseOperationType.update)) ∧
      esWrite (fun _ => false) c4Data none false (some BaseOperationType.append) =
        Except.error (BackendErr.param appendNotSupportedMsg) ∧
      esWrite (fun _ => false) c4Data none false (some BaseOperationType.delete) ≠
        Except.error (BackendErr.param appendNotSupportedMsg) ∧
      ldpWrite c4Data none none false none =
        Except.error (BackendErr.notImplemented (ldpReadOnlyMsg none)) := by
  have h := c4_amended c4Data (by decide)
  exact ⟨h.1 noInsertFailure (fun i => i) none false BaseOperationType.update (by decide),
    h.2.1 (fun _ => false) none false,
    h.2.2.1 (fun _ => false) none false BaseOperationType.delete (by decide)
      appendNotSupportedMsg,
    h.2.2.2 c4Data none none false none⟩

/-! ## The S3 object-store write lifecycle and the history journal

The store is the association list of `(object key, content)` of the target
bucket (the `bucket/object` split of the `target` argument selects the
bucket; the claims fix a single bucket).  `put_object` replaces the whole
object, so writing chunk by chunk leaves the last chunk as the content.
Transport failures of `put_object`/`head_object` are outside the claims and
not modelled.  `HistoryMixin` lives in `ralph/backends/mixins.py`, which is
not under `src/`; its reading side is modelled from the spec below. -/

/-- A history journal entry (section 3 of the spec).  The S3 backend writes
the action under the key `action`; the LDP `read` writes it under the key
`command` — both optional fields keep the record faithful to what each
backend actually appends. -/
structure HistoryEntry where
  backend : String
  action : Option String := none
  command : Option String := none
  operation_type : Option String := none
  id : String
  filename : Option String := none
  size : Option Nat := none
  timestamp : Nat := 0
deriving DecidableEq

def s3Name : String := "s3"

def emptyStr : String := ""

def writeLit : String := "write"

def readLit : String := "read"

/-- Middle part of the S3 overwrite-refusal message
(`"%s already exists and overwrite is not allowed for operation %s"`). -/
def alreadyExistsMid : String := " already exists and overwrite is not allowed for operation "

def s3AlreadyExistsMsg (obj : String) (op : BaseOperationType) : String :=
  obj ++ alreadyExistsMid ++ opName op

/-- `client.put_object`: replaces (or creates) the object's content. -/
def s3Put (store : List (String × String)) (key v : String) : List (String × String) :=
  match store with
  | [] => [(key, v)]
  | (k, w) :: rest => if k == key then (k, v) :: rest else (k, w) :: s3Put rest key v

/-- `S3DataBackend.write`: empty input returns `0` first; `APPEND`/`DELETE`
raise `BackendParameterException`; for `CREATE`/`INDEX` an existing target
raises `BackendException` unless `ignore_errors`, in which case the write
proceeds anyway; the content is written chunk by chunk (each `put_object`
replacing the object) and a `write` history entry is appended.  Any other
operation (`UPDATE`) skips the whole writing block and returns `1`. -/
def s3Write (store : List (String × String)) (history : List HistoryEntry)
    (data : List String) (target_object : String) (ignore_errors : Bool)
    (operation_type : Option BaseOperationType) (nowT : Nat) :
    Except BackendErr (List (String × String) × List HistoryEntry × Nat) :=
  match data with
  | [] => Except.ok (store, history, 0)
  | _ :: _ =>
    let op := operation_type.getD BaseOperationType.create
    if op == BaseOperationType.append || op == BaseOperationType.delete then
      Except.error (BackendErr.param (opNotAllowedMsg op))
    else
      let doWrite : Except BackendErr (List (String × String) × List HistoryEntry × Nat) :=
        let store' := data.foldl (fun st chunk => s3Put st target_object chunk) store
        let entry : HistoryEntry :=
          { backend := s3Name, action := some writeLit,
            operation_type := some (opName op), id := target_object,
            size := some (data.getLastD emptyStr).length, timestamp := nowT }
        Except.ok (store', history ++ [entry], 1)
      if op == BaseOperationType.create || op == BaseOperationType.index then
        if (store.map Prod.fst).contains target_object then
          if !ignore_errors then
            Except.error (BackendErr.backend [s3AlreadyExistsMsg target_object op])
          else doWrite
        else doWrite
      else Except.ok (store, history, 1)

theorem s3Put_lookup (store : List (String × String)) (key v : String) :
    (s3Put store key v).lookup key = some v := by
  induction store with
  | nil => simp [s3Put, List.lookup]
  | cons kw rest ih =>
    rcases kw with ⟨k, w⟩
    rw [s3Put]
    by_cases h : k = key
    · subst h
      simp [List.lookup]
    · have hb : (k == key) = false := by simp [h]
      have hb2 : (key == k) = false := by
        simp only [beq_eq_false_iff_ne, ne_eq]
        exact fun hc => h hc.symm
      rw [if_neg (by simp [hb])]
      simp [List.lookup, hb2, ih]

theorem s3_foldl_put_lookup (key : String) :
    ∀ (chunks : List String) (store : List (String × String)) (hne : chunks ≠ []),
      (chunks.foldl (fun st c => s3Put st key c) store).lookup key =
        some (chunks.getLast hne) := by
  intro chunks
  induction chunks with
  | nil => intro store hne; exact absurd rfl hne
  | cons c rest ih =>
    intro store hne
    cases rest with
    | nil => simp [List.foldl, s3Put_lookup]
    | cons c2 rest2 =>
      rw [List.foldl_cons, List.getLast_cons (by simp)]
      exact ih (s3Put store key c) (by simp)

/-- The `new-archive.gz` key of spec scenario S3. -/
def s3Key : String := "new-archive.gz"

def oldContent : String := "old-content"

def newContent : String := "new-content"

/-- A store already holding the target object. -/
def c5Store : List (String × String) := [(s3Key, oldContent)]

/-- Claim C5: the first half holds — a `CREATE` write to an existing key
with `ignore_errors = false` fails with an error naming the key and the
operation, leaving the store unchanged.  The second half is a code bug:
an `UPDATE` write performs no write at all (the whole upload block is
guarded by `operation_type in [CREATE, INDEX]`), silently returns `1`, and
leaves the prior content in place, contradicting the claim and the
backend's own docstring ("If operation_type is `UPDATE`, the target object
is overwritten"). -/
theorem c5_update_write_noop :
    s3Write c5Store [] [newContent] s3Key false (some BaseOperationType.update) 0 =
        Except.ok (c5Store, [], 1) ∧
      c5Store.lookup s3Key = some oldContent ∧
      s3Write c5Store [] [newContent] s3Key false (some BaseOperationType.create) 0 =
        Except.error (BackendErr.backend [s3AlreadyExistsMsg s3Key BaseOperationType.create]) := by
  refine ⟨by decide, by decide, by decide⟩

/-- Claim C10: for a `CREATE`/`INDEX` write whose target already exists and
`ignore_errors = true`, the existence rejection is reduced to a log line:
the write proceeds, the object ends up holding the (last chunk of the) new
data, a `write` history entry is appended, and the call returns `1` as a
normal success. -/
theorem c10_ignore_errors_overwrites (store : List (String × String))
    (history : List HistoryEntry) (data : List String) (key : String) (nowT : Nat)
    (op : BaseOperationType)
    (hop : op = BaseOperationType.create ∨ op = BaseOperationType.index)
    (hkey : (store.map Prod.fst).contains key = true)
    (hne : data ≠ []) :
    s3Write store history data key true (some op) nowT =
        Except.ok (data.foldl (fun st chunk => s3Put st key chunk) store,
          history ++
            [{ backend := s3Name, action := some writeLit,
               operation_type := some (opName op), id := key,
               size := some (data.getLastD emptyStr).length, timestamp := nowT }],
          1) ∧
      (data.foldl (fun st chunk => s3Put st key chunk) store).lookup key =
        some (data.getLast hne) := by
  obtain ⟨a, rest, rfl⟩ := List.exists_cons_of_ne_nil hne
  have hop1 : (op == BaseOperationType.append || op == BaseOperationType.delete) = false := by
    rcases hop with rfl | rfl <;> rfl
  have hop2 : (op == BaseOperationType.create || op == BaseOperationType.index) = true := by
    rcases hop with rfl | rfl <;> rfl
  constructor
  · rw [s3Write]
    simp only [Option.getD_some, hop1, Bool.false_eq_true, if_false, hop2, if_true,
      hkey, Bool.not_true]
  · exact s3_foldl_put_lookup key (a :: rest) store hne

/-- Claim C10, witness: with the existing `new-archive.gz` object and
`ignore_errors = true`, a `CREATE` write of one chunk returns `1` and the
object now holds the new content. -/
theorem c10_ignore_errors_overwrites_witness :
    s3Write c5Store [] [newContent] s3Key true (some BaseOperationType.create) 7 =
        Except.ok ([(s3Key, newContent)],
          [{ backend := s3Name, action := some writeLit,
             operation_type := some (opName BaseOperationType.create), id := s3Key,
             size := some newContent.length, timestamp := 7 }],
          1) ∧
      ([newContent].foldl (fun st chunk => s3Put st s3Key chunk) c5Store).lookup s3Key =
        some newContent := by
  have h := c10_ignore_errors_overwrites c5Store [] [newContent] s3Key 7
    BaseOperationType.create (Or.inl rfl) (by decide) (by decide)
  refine ⟨?_, h.2⟩
  rw [h.1]
  decide

/-! ## Status probes

Each `status()` runs one fresh probe.  The probe outcome types enumerate
what the wrapped driver call can do, per the driver's documented exception
hierarchy: every clickhouse-connect error derives from `ClickHouseError`
(caught), while botocore's connection errors (`EndpointConnectionError`,
timeouts) do not derive from `ClientError`, which is the only class
`S3DataBackend.status` catches. -/

/-- Modelled from the spec: the status enumeration (`DataBackendStatus`
lives in `ralph/backends/data/base.py`, not under `src/`; section 4.3 names
`OK`, `AWAY`, `ERROR`). -/
inductive DataBackendStatus where
  | ok
  | away
  | error
deriving DecidableEq

/-- Outcome of the ES probe: `client.info()` raises `ConnectionError`, or
succeeds and `client.cat.health()` returns a status line. -/
inductive ESProbeOutcome where
  | connError
  | healthy (cluster : String)
deriving DecidableEq

def greenLit : String := "green"

/-- Case-sensitive substring test (Python `in` on strings). -/
def strContains (hay needle : String) : Bool := charsContain needle.data hay.data

/-- `ESDataBackend.status`. -/
def esStatus : ESProbeOutcome → DataBackendStatus
  | ESProbeOutcome.connError => DataBackendStatus.away
  | ESProbeOutcome.healthy s =>
    if strContains s greenLit then DataBackendStatus.ok else DataBackendStatus.error

/-- Outcome of the ClickHouse probe `client.query("SELECT 1")`: success, or
any `ClickHouseError` (transport or server side — the driver derives both
from the same base class). -/
inductive CHProbeOutcome where
  | chError
  | success
deriving DecidableEq

/-- `ClickHouseDataBackend.status`. -/
def chStatus : CHProbeOutcome → DataBackendStatus
  | CHProbeOutcome.chError => DataBackendStatus.away
  | CHProbeOutcome.success => DataBackendStatus.ok

/-- Outcome of the S3 probe `client.head_bucket(...)`: success, a
`ClientError` (e.g. 403 forbidden), or a transport failure, which botocore
raises as an error class that is not a `ClientError`. -/
inductive S3ProbeOutcome where
  | clientError
  | transportFailure
  | success
deriving DecidableEq

def connectionErrorName : String := "EndpointConnectionError"

/-- `S3DataBackend.status`: only `ClientError` is caught; a transport
failure escapes the probe as an uncaught exception. -/
def s3Status : S3ProbeOutcome → Except BackendErr DataBackendStatus
  | S3ProbeOutcome.clientError => Except.ok DataBackendStatus.error
  | S3ProbeOutcome.transportFailure =>
    Except.error (BackendErr.uncaught connectionErrorName)
  | S3ProbeOutcome.success => Except.ok DataBackendStatus.ok

/-- Claim C6, counterexample: a transport-level failure of the S3 probe is
not converted into `AWAY` — the exception is not caught at all, so
`status()` raises instead of returning a status value, refuting the claim
as stated for every backend. -/
theorem c6_counterexample :
    s3Status S3ProbeOutcome.transportFailure ≠ Except.ok DataBackendStatus.away ∧
      s3Status S3ProbeOutcome.transportFailure =
        Except.error (BackendErr.uncaught connectionErrorName) := by
  refine ⟨by decide, rfl⟩

/-- Claim C6 (amended): the search-cluster probe satisfies the full
taxonomy (`AWAY` on transport failure, `ERROR` on a non-green cluster,
`OK` otherwise).  The column-store probe folds every `ClickHouseError` —
transport or server side — into `AWAY` and never returns `ERROR`.  The
object-store probe returns `ERROR` on any `ClientError` (including a
forbidden bucket) and `OK` on success, but does not catch transport-level
failures: they raise instead of becoming `AWAY`. -/
theorem c6_amended :
    esStatus ESProbeOutcome.connError = DataBackendStatus.away
    ∧ (∀ s, strContains s greenLit = true →
        esStatus (ESProbeOutcome.healthy s) = DataBackendStatus.ok)
    ∧ (∀ s, strContains s greenLit = false →
        esStatus (ESProbeOutcome.healthy s) = DataBackendStatus.error)
    ∧ chStatus CHProbeOutcome.chError = DataBackendStatus.away
    ∧ chStatus CHProbeOutcome.success = DataBackendStatus.ok
    ∧ s3Status S3ProbeOutcome.clientError = Except.ok DataBackendStatus.error
    ∧ s3Status S3ProbeOutcome.success = Except.ok DataBackendStatus.ok
    ∧ s3Status S3ProbeOutcome.transportFailure =
        Except.error (BackendErr.uncaught connectionErrorName) := by
  refine ⟨rfl, ?_, ?_, rfl, rfl, rfl, rfl, rfl⟩
  · intro s h
    simp [esStatus, h]
  · intro s h
    simp [esStatus, h]

/-- A green `cat.health()` line. -/
def c6Green : String := "docker-cluster green 1"

/-- A yellow `cat.health()` line. -/
def c6Yellow : String := "docker-cluster yellow 1"

/-- Claim C6, witness: a green health line yields `OK`; a yellow one yields
`ERROR`. -/
theorem c6_amended_witness :
    esStatus (ESProbeOutcome.healthy c6Green) = DataBackendStatus.ok ∧
      esStatus (ESProbeOutcome.healthy c6Yellow) = DataBackendStatus.error := by
  exact ⟨c6_amended.2.1 c6Green (by decide), c6_amended.2.2.1 c6Yellow (by decide)⟩

/-! ## The LDP log-archive backend and the new-archives filter -/

def ldpName : String := "ldp"

def slashLit : String := "/"

/-- Modelled from the spec: `HistoryMixin.get_command_history`
(`ralph/backends/mixins.py` is not under `src/`).  Section 4.7: the new
filter "collects identifiers whose action is `read` and whose backend
matches" from the journal. -/
def get_command_history (history : List HistoryEntry) (backend command : String) :
    List String :=
  (history.filter fun e => e.backend == backend && e.action == some command).map
    HistoryEntry.id

/-- `LDPDataBackend.list` (name mode): the archive names returned by the
platform API, minus — when `new` is set — the identifiers recorded in the
history under `(ldp, read)`.  The source computes a set difference; the
order-preserving filter has the same membership. -/
def ldpList (archives : List String) (history : List HistoryEntry) (new : Bool) :
    List String :=
  if new then
    archives.filter fun a => !(get_command_history history ldpName readLit).contains a
  else archives

/-- The history append performed at the end of a successful
`LDPDataBackend.read`: the entry's `id` is the stream id prepended to the
archive name, and the action is recorded under the `command` key. -/
def ldpReadRecord (history : List HistoryEntry) (target query filename : String)
    (size nowT : Nat) : List HistoryEntry :=
  history ++
    [{ backend := ldpName, command := some readLit,
       id := target ++ slashLit ++ query, filename := some filename,
       size := some size, timestamp := nowT }]

def c8Stream : String := "stream-1"

def c8Archive : String := "2020-06-16.gz"

/-- The platform's archive listing for the stream. -/
def c8ArchiveList : List String := [c8Archive]

/-- Claim C8: the read does append an entry whose id is the stream id
prepended to the archive name — but a subsequent `list(new=True)` still
yields the archive.  The recorded id `stream-1/2020-06-16.gz` can never
match the bare archive name the platform lists, and the entry is recorded
under the `command` key while the filter reads `action`, so the read
archive is spuriously reported as new, against the claim (and the
documented purpose of `new`). -/
theorem c8_new_filter_misses_read_archive :
    (ldpReadRecord [] c8Stream c8Archive c8Archive 1 2).map HistoryEntry.id =
        [c8Stream ++ slashLit ++ c8Archive] ∧
      c8Stream ++ slashLit ++ c8Archive ≠ c8Archive ∧
      get_command_history (ldpReadRecord [] c8Stream c8Archive c8Archive 1 2)
        ldpName readLit = [] ∧
      ldpList c8ArchiveList (ldpReadRecord [] c8Stream c8Archive c8Archive 1 2) true =
        [c8Archive] := by
  refine ⟨by decide, by decide, by decide, by decide⟩

/-! ## The xAPI base actor models (`ralph/models/xapi/base/actors.py`)

Pydantic models become boolean validators over a record of the fields an
actor payload can carry.  The shared config (`BaseModelWithConfig`, in the
missing `config.py`) forbids unknown fields at closed shape boundaries
(spec section 4.2), so each validator also requires every field outside the
model's declared set to be absent.  `IRI`, `MailtoEmail` and `AnyUrl`
formats live outside `src/` (pydantic / `common.py`) and are abstracted as
validity oracles; the `mbox_sha1sum` regex `[0-9a-f]{40}` is in the source
and is implemented. -/

structure AccountRecord where
  homePage : Option String := none
  name : Option String := none
deriving DecidableEq

/-- An incoming agent payload (agents have no `member`). -/
structure AgentRecord where
  objectType : Option String := none
  name : Option String := none
  mbox : Option String := none
  mbox_sha1sum : Option String := none
  openid : Option String := none
  account : Option AccountRecord := none
deriving DecidableEq

/-- An incoming group payload. -/
structure GroupRecord where
  objectType : Option String := none
  name : Option String := none
  mbox : Option String := none
  mbox_sha1sum : Option String := none
  openid : Option String := none
  account : Option AccountRecord := none
  member : Option (List AgentRecord) := none
deriving DecidableEq

def agentLit : String := "Agent"

def groupLit : String := "Group"

/-- `BaseXapiAgentTypeAccount`: `homePage : IRI` and `name : StrictStr`,
both required. -/
def validAccount (isIRI : String → Bool) (a : AccountRecord) : Bool :=
  (match a.homePage with | some h => isIRI h | none => false) && a.name.isSome

/-- The `^[0-9a-f]{40}$` constraint on `mbox_sha1sum`. -/
def isSha1Hex (s : String) : Bool :=
  s.length == 40 && s.data.all fun c => c.isDigit || (97 ≤ c.toNat && c.toNat ≤ 102)

/-- `objectType : Optional[Literal["Agent"]]`. -/
def validAgentObjectType (r : AgentRecord) : Bool :=
  match r.objectType with
  | none => true
  | some v => v == agentLit

/-- `BaseXapiAgentTypeWithMboxIFI` (closed: no other IFI field admitted). -/
def validAgentMbox (isMailto : String → Bool) (r : AgentRecord) : Bool :=
  validAgentObjectType r &&
    (match r.mbox with | some m => isMailto m | none => false) &&
    r.mbox_sha1sum.isNone && r.openid.isNone && r.account.isNone

/-- `BaseXapiAgentTypeWithMboxSha1SumIFI`. -/
def validAgentMboxSha1 (r : AgentRecord) : Bool :=
  validAgentObjectType r &&
    (match r.mbox_sha1sum with | some v => isSha1Hex v | none => false) &&
    r.mbox.isNone && r.openid.isNone && r.account.isNone

/-- `BaseXapiAgentTypeWithOpenIdIFI`. -/
def validAgentOpenid (isURL : String → Bool) (r : AgentRecord) : Bool :=
  validAgentObjectType r &&
    (match r.openid with | some o => isURL o | none => false) &&
    r.mbox.isNone && r.mbox_sha1sum.isNone && r.account.isNone

/-- `BaseXapiAgentTypeWithAccountIFI`. -/
def validAgentAccount (isIRI : String → Bool) (r : AgentRecord) : Bool :=
  validAgentObjectType r &&
    (match r.account with | some a => validAccount isIRI a | none => false) &&
    r.mbox.isNone && r.mbox_sha1sum.isNone && r.openid.isNone

/-- `BaseXapiAgentType` (the union of the four IFI variants). -/
def validAgent (isMailto isURL isIRI : String → Bool) (r : AgentRecord) : Bool :=
  validAgentMbox isMailto r || validAgentMboxSha1 r ||
    validAgentOpenid isURL r || validAgentAccount isIRI r

/-- `objectType : Literal["Group"]` (required). -/
def validGroupObjectType (r : GroupRecord) : Bool :=
  r.objectType == some groupLit

def validMemberList (isMailto isURL isIRI : String → Bool)
    (ms : List AgentRecord) : Bool :=
  ms.all (validAgent isMailto isURL isIRI)

/-- `BaseXapiAnonymousGroupType`: `member` required, no IFI field. -/
def validAnonymousGroup (isMailto isURL isIRI : String → Bool) (r : GroupRecord) : Bool :=
  validGroupObjectType r &&
    (match r.member with
     | some ms => validMemberList isMailto isURL isIRI ms
     | none => false) &&
    r.mbox.isNone && r.mbox_sha1sum.isNone && r.openid.isNone && r.account.isNone

/-- `BaseXapiIdentifiedGroupTypeWithMboxIFI`: optional `member`, `mbox`
required. -/
def validIdentifiedGroupMbox (isMailto isURL isIRI : String → Bool)
    (r : GroupRecord) : Bool :=
  validGroupObjectType r &&
    (match r.member with
     | some ms => validMemberList isMailto isURL isIRI ms
     | none => true) &&
    (match r.mbox with | some m => isMailto m | none => false) &&
    r.mbox_sha1sum.isNone && r.openid.isNone && r.account.isNone

/-- `BaseXapiIdentifiedGroupTypeWithMboxSha1SumIFI`. -/
def validIdentifiedGroupMboxSha1 (isMailto isURL isIRI : String → Bool)
    (r : GroupRecord) : Bool :=
  validGroupObjectType r &&
    (match r.member with
     | some ms => validMemberList isMailto isURL isIRI ms
     | none => true) &&
    (match r.mbox_sha1sum with | some v => isSha1Hex v | none => false) &&
    r.mbox.isNone && r.openid.isNone && r.account.isNone

/-- `BaseXapiIdentifiedGroupTypeWithOpenIdIFI`. -/
def validIdentifiedGroupOpenid (isMailto isURL isIRI : String → Bool)
    (r : GroupRecord) : Bool :=
  validGroupObjectType r &&
    (match r.member with
     | some ms => validMemberList isMailto isURL isIRI ms
     | none => true) &&
    (match r.openid with | some o => isURL o | none => false) &&
    r.mbox.isNone && r.mbox_sha1sum.isNone && r.account.isNone

/-- `BaseXapiIdentifiedGroupTypeWithAccountIFI` as the source defines it:
its docstring says "group type with an account IFI", but the class inherits
`BaseXapiAgentTypeWithOpenIdIFI`, so its declared fields are
`{objectType, name, member, openid}` — `openid` is required and `account`
is an unknown (hence rejected) field. -/
def validIdentifiedGroupAccount (isMailto isURL isIRI : String → Bool)
    (r : GroupRecord) : Bool :=
  validGroupObjectType r &&
    (match r.member with
     | some ms => validMemberList isMailto isURL isIRI ms
     | none => true) &&
    (match r.openid with | some o => isURL o | none => false) &&
    r.mbox.isNone && r.mbox_sha1sum.isNone && r.account.isNone

/-- `BaseXapiGroupType` (the union of the five group variants). -/
def validGroup (isMailto isURL isIRI : String → Bool) (r : GroupRecord) : Bool :=
  validAnonymousGroup isMailto isURL isIRI r ||
    validIdentifiedGroupMbox isMailto isURL isIRI r ||
    validIdentifiedGroupMboxSha1 isMailto isURL isIRI r ||
    validIdentifiedGroupOpenid isMailto isURL isIRI r ||
    validIdentifiedGroupAccount isMailto isURL isIRI r

def c9HomePage : String := "http://www.example.com"

/-- The claim's record: `objectType = "Group"` with an account identifier
`{homePage, name}` and no other IFI. -/
def c9Record : GroupRecord :=
  { objectType := some groupLit,
    account := some { homePage := some c9HomePage, name := some accountNameLit } }

/-- Claim C9: the record with `objectType = "Group"` and an account IFI is
rejected — by the account variant itself (its required `openid` is absent
and `account` is unknown to it) and by every other variant of the group
union — for every choice of the format oracles.  The class docstring says
the account IFI is accepted; the inheritance from the OpenID model makes
this a code bug. -/
theorem c9_group_account_ifi_rejected (isMailto isURL isIRI : String → Bool) :
    validIdentifiedGroupAccount isMailto isURL isIRI c9Record = false ∧
      validGroup isMailto isURL isIRI c9Record = false := by
  constructor
  · simp [validIdentifiedGroupAccount, c9Record, validGroupObjectType]
  · simp [validGroup, validAnonymousGroup, validIdentifiedGroupMbox,
      validIdentifiedGroupMboxSha1, validIdentifiedGroupOpenid,
      validIdentifiedGroupAccount, c9Record, validGroupObjectType]

end Ralph
